import Mathlib

/-!
Verification of the tweet-gen carousel editor core (src/App.tsx, carousel
version; src/types.ts; src/constants.ts).

The shallow embedding below translates the document model, the history
manager, the slide/carousel operations, the drag/resize interaction math,
the validation routine and the carousel export loop into pure Lean
functions.  JavaScript numbers are modelled as rationals (ℚ), array
indices as naturals, nullable fields as `Option`, and the DOM-to-image
collaborator as a success/failure oracle.
-/

namespace TweetGen

/-- types.ts `Position`: a 2D offset in unscaled document pixels. -/
structure Position where
  x : ℚ
  y : ℚ
deriving DecidableEq

/-- types.ts `TweetData`: one visual slide. `tweetImage` is `null` when
absent, modelled as `Option String`. -/
structure TweetData where
  displayName : String
  handle : String
  content : String
  avatarUrl : String
  background : String
  headerPosition : Position
  headerScale : ℚ
  contentPosition : Position
  contentScale : ℚ
  contentWidth : ℚ
  tweetImage : Option String
  tweetImagePosition : Position
  tweetImageScale : ℚ
deriving DecidableEq

/-- types.ts `Guideline.type`. -/
inductive GuidelineType
  | vertical
  | horizontal
deriving DecidableEq

/-- types.ts `Guideline`: transient alignment indicator shown during a drag. -/
structure Guideline where
  type : GuidelineType
  position : ℚ
deriving DecidableEq

/-- types.ts `BackgroundOption`. -/
structure BackgroundOption where
  id : String
  name : String
  style : String
  previewClass : String
deriving DecidableEq

/-- constants.ts `DEFAULT_AVATAR_BASE64` (a 1x1 gray pixel). -/
def DEFAULT_AVATAR_BASE64 : String :=
  "data:image/png;base64,iVBORw0KGgoAAAANSUhEUgAAAAEAAAABCAQAAAC1HAwCAAAAC0lEQVR42mNk+A8AAQUBAScY42YAAAAASUVORK5CYII="

/-- constants.ts `BACKGROUND_OPTIONS`. -/
def BACKGROUND_OPTIONS : List BackgroundOption :=
  [ { id := "classic", name := "Clássico", style := "#FFFFFF",
      previewClass := "bg-white border-2 border-slate-200" },
    { id := "dark", name := "Dark Mode", style := "#15202B",
      previewClass := "bg-[#15202B] border-2 border-slate-700" },
    { id := "sunset", name := "Sunset Viral",
      style := "linear-gradient(135deg, #FF9A9E 0%, #FECFEF 99%, #FECFEF 100%)",
      previewClass := "bg-gradient-to-br from-pink-300 to-pink-100" },
    { id := "tech", name := "Tech Blue",
      style := "linear-gradient(135deg, #E0F2FE 0%, #E0E7FF 100%)",
      previewClass := "bg-gradient-to-br from-blue-100 to-indigo-100" },
    { id := "lemon", name := "Fresh Lemon",
      style := "linear-gradient(120deg, #fdfbfb 0%, #ebedee 100%)",
      previewClass := "bg-gradient-to-br from-slate-50 to-slate-200" },
    { id := "neon", name := "Neon Dark",
      style := "linear-gradient(to bottom right, #111827, #1e1b4b)",
      previewClass := "bg-gradient-to-br from-gray-900 to-indigo-950" } ]

/-- constants.ts `DEFAULT_TWEET_DATA` (background is `BACKGROUND_OPTIONS[0].style`). -/
def DEFAULT_TWEET_DATA : TweetData :=
  { displayName := "Pedro Barboza",
    handle := "@Pedro.barboza_",
    content := "Dê vida aos seus posts usando a primeira ferramenta do Brasil que gera posts do Instagram no Formato de Tweet.",
    avatarUrl := DEFAULT_AVATAR_BASE64,
    background := ((BACKGROUND_OPTIONS.get? 0).map BackgroundOption.style).getD "",
    headerPosition := { x := 0, y := 0 },
    headerScale := 1,
    contentPosition := { x := 0, y := 0 },
    contentScale := 1,
    contentWidth := 100,
    tweetImage := none,
    tweetImagePosition := { x := 0, y := 0 },
    tweetImageScale := 1.0 }

/-- App.tsx `CarouselState`: the slides and the active-slide pointer. -/
structure CarouselState where
  slides : List TweetData
  activeSlideIndex : Nat
deriving DecidableEq

/-- App.tsx `MAX_SLIDES = 10`. -/
def MAX_SLIDES : Nat := 10

/-- The ambient editor state relevant to the claims: the live carousel
document, the undo stack (`history`, oldest first, push at the end), the
redo stack (newest at the head) and the user-visible error message
(`error`, `null` modelled as `none`).  Transient drag/resize/editing flags
are kept in separate refs in the source and are modelled separately. -/
structure EditorState where
  carousel : CarouselState
  history : List CarouselState
  redoStack : List CarouselState
  error : Option String
deriving DecidableEq

/-- The initial editor state: one default slide, empty stacks, no error
(the `useState` initializers in App.tsx). -/
def initialEditorState : EditorState :=
  { carousel := { slides := [DEFAULT_TWEET_DATA], activeSlideIndex := 0 },
    history := [],
    redoStack := [],
    error := none }

/-- App.tsx `cloneSlide`: spread copy of a slide rebuilding each nested
position object, so the copy shares no nested mutable object with the
original. -/
def cloneSlide (slide : TweetData) : TweetData :=
  { slide with
    headerPosition := { x := slide.headerPosition.x, y := slide.headerPosition.y },
    contentPosition := { x := slide.contentPosition.x, y := slide.contentPosition.y },
    tweetImagePosition := { x := slide.tweetImagePosition.x, y := slide.tweetImagePosition.y } }

/-- App.tsx `cloneCarouselState`: deep snapshot of the whole carousel. -/
def cloneCarouselState (state : CarouselState) : CarouselState :=
  { slides := state.slides.map cloneSlide,
    activeSlideIndex := state.activeSlideIndex }

/-- App.tsx `saveToHistory`: push a deep copy of the pre-mutation state on
the undo stack and clear the redo stack. -/
def saveToHistory (es : EditorState) (prevState : CarouselState) : EditorState :=
  { es with
    history := es.history ++ [cloneCarouselState prevState],
    redoStack := [] }

/-- App.tsx `handleUndo`: pop the newest undo entry (no-op when the stack
is empty), push a deep copy of the current document on the redo stack and
make the popped entry current. -/
def handleUndo (es : EditorState) : EditorState :=
  match es.history.getLast? with
  | none => es
  | some previousState =>
    { carousel := previousState,
      history := es.history.dropLast,
      redoStack := cloneCarouselState es.carousel :: es.redoStack,
      error := es.error }

/-- App.tsx `handleRedo`: pop the head of the redo stack (no-op when
empty), push a deep copy of the current document on the undo stack and
make the popped entry current. -/
def handleRedo (es : EditorState) : EditorState :=
  match es.redoStack with
  | [] => es
  | nextState :: newRedo =>
    { carousel := nextState,
      history := es.history ++ [cloneCarouselState es.carousel],
      redoStack := newRedo,
      error := es.error }

/-- App.tsx `updateTweetData`: replace the active slide by `updater` of
its current value.  The source indexes `slides[activeSlideIndex]`
unconditionally; under the structural invariant the index is in range, so
the `getD` fallback never fires. -/
def updateTweetData (es : EditorState) (updater : TweetData → TweetData) : EditorState :=
  let idx := es.carousel.activeSlideIndex
  { es with
    carousel := { es.carousel with
      slides := es.carousel.slides.set idx
        (updater ((es.carousel.slides.get? idx).getD DEFAULT_TWEET_DATA)) } }

/-- App.tsx `handleSelectSlide`: set the active slide pointer (also exits
any inline edit, which is not part of the modelled state).  Every call
site passes the index of an existing slide (the thumbnail buttons map over
`slides`, and the keyboard arrows are bounds-guarded). -/
def handleSelectSlide (es : EditorState) (index : Nat) : EditorState :=
  { es with carousel := { es.carousel with activeSlideIndex := index } }

/-- App.tsx `handleAddSlide`: capacity-guarded append of a deep clone of
the active slide; the new slide becomes active.  The source falls back to
`DEFAULT_TWEET_DATA` when the active index is out of range. -/
def handleAddSlide (es : EditorState) : EditorState :=
  if MAX_SLIDES ≤ es.carousel.slides.length then
    { es with error := some ("Limite de " ++ toString MAX_SLIDES ++ " slides atingido.") }
  else
    let es1 := saveToHistory es es.carousel
    let baseSlide := (es.carousel.slides.get? es.carousel.activeSlideIndex).getD DEFAULT_TWEET_DATA
    let newSlide := cloneSlide baseSlide
    { es1 with
      carousel := { slides := es.carousel.slides ++ [newSlide],
                    activeSlideIndex := es.carousel.slides.length },
      error := none }

/-- App.tsx `handleDuplicateSlide`: capacity-guarded insertion of a deep
clone of the active slide immediately after it; the copy becomes active.
The source indexes `slides[idx]` unconditionally; under the structural
invariant the index is in range. -/
def handleDuplicateSlide (es : EditorState) : EditorState :=
  if MAX_SLIDES ≤ es.carousel.slides.length then
    { es with error := some ("Limite de " ++ toString MAX_SLIDES ++ " slides atingido.") }
  else
    let es1 := saveToHistory es es.carousel
    let idx := es.carousel.activeSlideIndex
    let newSlide := cloneSlide ((es.carousel.slides.get? idx).getD DEFAULT_TWEET_DATA)
    { es1 with
      carousel := { slides := es.carousel.slides.take (idx + 1)
                      ++ newSlide :: es.carousel.slides.drop (idx + 1),
                    activeSlideIndex := idx + 1 },
      error := none }

/-- App.tsx `handleRemoveSlide`: last-slide-guarded removal of the active
slide (`filter` on the index, i.e. removal of position `idx`), re-clamping
the active index to `max 0 (min idx (newLength - 1))`. -/
def handleRemoveSlide (es : EditorState) : EditorState :=
  if es.carousel.slides.length ≤ 1 then
    { es with error := some "É necessário manter pelo menos 1 slide." }
  else
    let es1 := saveToHistory es es.carousel
    let idx := es.carousel.activeSlideIndex
    let updatedSlides := es.carousel.slides.eraseIdx idx
    { es1 with
      carousel := { slides := updatedSlides,
                    activeSlideIndex := max 0 (min idx (updatedSlides.length - 1)) },
      error := none }

/-- App.tsx `handleMoveSlide` direction argument. -/
inductive MoveDirection
  | left
  | right
deriving DecidableEq

/-- App.tsx `handleMoveSlide`: swap the active slide with its neighbour;
no-op (and no snapshot) when the move would go out of bounds.  The target
index is computed in ℤ exactly as the JavaScript number arithmetic does.
The source reads `slides[idx]` and `slides[targetIndex]` unconditionally;
under the structural invariant both are in range. -/
def handleMoveSlide (es : EditorState) (direction : MoveDirection) : EditorState :=
  let idx := es.carousel.activeSlideIndex
  let targetIndex : Int :=
    match direction with
    | .left => (idx : Int) - 1
    | .right => (idx : Int) + 1
  if targetIndex < 0 ∨ (es.carousel.slides.length : Int) ≤ targetIndex then es
  else
    let es1 := saveToHistory es es.carousel
    let t := targetIndex.toNat
    let slideA := (es.carousel.slides.get? idx).getD DEFAULT_TWEET_DATA
    let slideB := (es.carousel.slides.get? t).getD DEFAULT_TWEET_DATA
    { es1 with
      carousel := { slides := (es.carousel.slides.set idx slideB).set t slideA,
                    activeSlideIndex := t } }

/-- JavaScript `Math.abs` on (finite) numbers. -/
def jsAbs (q : ℚ) : ℚ := if q < 0 then -q else q

/-- JavaScript `Math.min` on (finite) numbers. -/
def jsMin (a b : ℚ) : ℚ := if a ≤ b then a else b

/-- JavaScript `Math.max` on (finite) numbers. -/
def jsMax (a b : ℚ) : ℚ := if a ≤ b then b else a

/-- App.tsx `dragStartRef` payload: pointer start, the element's position
at drag start, and the element's document-space size. -/
structure DragStart where
  x : ℚ
  y : ℚ
  initialX : ℚ
  initialY : ℚ
  width : ℚ
  height : ℚ
deriving DecidableEq

/-- App.tsx `SNAP_THRESHOLD` inside `processMove`. -/
def SNAP_THRESHOLD : ℚ := 15

/-- App.tsx `CARD_WIDTH` inside `processMove`. -/
def CARD_WIDTH : ℚ := 1080

/-- App.tsx `CARD_PADDING_LEFT` inside `processMove`. -/
def CARD_PADDING_LEFT : ℚ := 100

/-- The outcome of one drag move: the position written to the dragged
element and the guideline set replacing the previous one. -/
structure DragMoveResult where
  newX : ℚ
  newY : ℚ
  guidelines : List Guideline
deriving DecidableEq

/-- App.tsx `processMove`, dragging branch: pointer delta divided by the
view scale, snap of `newX` to 0 within the threshold (emitting a vertical
guideline at the left padding), an independent center snap (emitting a
vertical guideline at the card center), and snap of `newY` to 0 with no
guideline. -/
def processDragMove (ds : DragStart) (scale : ℚ) (clientX clientY : ℚ) : DragMoveResult :=
  let deltaX := (clientX - ds.x) / scale
  let deltaY := (clientY - ds.y) / scale
  let newX0 := ds.initialX + deltaX
  let newY0 := ds.initialY + deltaY
  let visualWidth := ds.width
  let newX1 := if jsAbs newX0 < SNAP_THRESHOLD then 0 else newX0
  let guidelines1 : List Guideline :=
    if jsAbs newX0 < SNAP_THRESHOLD then
      [{ type := GuidelineType.vertical, position := CARD_PADDING_LEFT }]
    else []
  let elementLeftRelativeToCard := CARD_PADDING_LEFT + newX1
  let elementCenterX := elementLeftRelativeToCard + visualWidth / 2
  let cardCenterX := CARD_WIDTH / 2
  let newX2 :=
    if jsAbs (elementCenterX - cardCenterX) < SNAP_THRESHOLD then
      cardCenterX - CARD_PADDING_LEFT - visualWidth / 2
    else newX1
  let guidelines2 :=
    if jsAbs (elementCenterX - cardCenterX) < SNAP_THRESHOLD then
      guidelines1 ++ [{ type := GuidelineType.vertical, position := cardCenterX }]
    else guidelines1
  let newY1 := if jsAbs newY0 < SNAP_THRESHOLD then 0 else newY0
  { newX := newX2, newY := newY1, guidelines := guidelines2 }

/-- App.tsx resize corner handles (`activeHandle`). -/
inductive CornerHandle
  | nw
  | ne
  | sw
  | se
deriving DecidableEq

/-- App.tsx `resizeStartRef` payload. -/
structure ResizeStart where
  startX : ℚ
  startY : ℚ
  initialScale : ℚ
deriving DecidableEq

/-- App.tsx `processMove`, resizing branch: per-corner signed growth,
sensitivity 0.002, clamp to [0.2, 3.0].  Returns the scale written to the
document for this move. -/
def processResizeMove (rs : ResizeStart) (corner : CornerHandle) (clientX clientY : ℚ) : ℚ :=
  let deltaX := clientX - rs.startX
  let deltaY := clientY - rs.startY
  let growthDelta : ℚ :=
    match corner with
    | .se => deltaX + deltaY
    | .sw => -deltaX + deltaY
    | .ne => deltaX - deltaY
    | .nw => -deltaX - deltaY
  let sensitivity : ℚ := 0.002
  let newScale := rs.initialScale + growthDelta * sensitivity
  jsMax 0.2 (jsMin newScale 3.0)

/-- The three manipulable regions of a slide. -/
inductive RegionItem
  | header
  | content
  | tweetImage
deriving DecidableEq

/-- App.tsx `processMove`, resizing branch: which scale field the new
clamped scale is written to. -/
def writeResizeScale (slide : TweetData) (item : RegionItem) (newScale : ℚ) : TweetData :=
  match item with
  | .header => { slide with headerScale := newScale }
  | .content => { slide with contentScale := newScale }
  | .tweetImage => { slide with tweetImageScale := newScale }

/-- The scale field of a region. -/
def scaleOf (slide : TweetData) (item : RegionItem) : ℚ :=
  match item with
  | .header => slide.headerScale
  | .content => slide.contentScale
  | .tweetImage => slide.tweetImageScale

/-- One resize session: `resizeStartRef` is fixed at session start and
every pointer move writes `processResizeMove` of that fixed start to the
document (the source recomputes from `initialScale`, not from the current
scale). -/
def runResizeSession (slide : TweetData) (rs : ResizeStart) (corner : CornerHandle)
    (item : RegionItem) (moves : List (ℚ × ℚ)) : TweetData :=
  moves.foldl (fun sl m => writeResizeScale sl item (processResizeMove rs corner m.1 m.2)) slide

/-- App.tsx `calculateScale`: skipped (`none`) when the container is
hidden (a zero dimension); otherwise the fitted view scale
`min ((w - padding) / cardWidth) ((h - padding) / cardHeight)` with
padding 32, card 1080×1440. -/
def calculateScale (containerWidth containerHeight : ℚ) : Option ℚ :=
  if containerWidth = 0 ∨ containerHeight = 0 then none
  else
    let cardWidth : ℚ := 1080
    let cardHeight : ℚ := 1440
    let padding : ℚ := 32
    let scaleX := (containerWidth - padding) / cardWidth
    let scaleY := (containerHeight - padding) / cardHeight
    some (jsMin scaleX scaleY)

/-- JavaScript `String.prototype.trim`: drop leading and trailing
whitespace characters. -/
def jsTrim (s : String) : String :=
  String.mk (((s.data.dropWhile Char.isWhitespace).reverse.dropWhile Char.isWhitespace).reverse)

/-- App.tsx `getValidationIssues` body: for the slide at position `index`
(0-based) push a "texto vazio" issue when the trimmed content is empty and
a "texto muito longo" issue when the content exceeds 420 characters. -/
def validationIssuesAux : Nat → List TweetData → List String
  | _, [] => []
  | index, slide :: rest =>
    let slideLabel := "Slide " ++ toString (index + 1)
    ((if jsTrim slide.content = "" then [slideLabel ++ ": texto vazio."] else []) ++
     (if 420 < slide.content.length then
        [slideLabel ++ ": texto muito longo (" ++ toString slide.content.length ++ " caracteres)."]
      else []))
      ++ validationIssuesAux (index + 1) rest

/-- App.tsx `getValidationIssues`: the issue list over all slides in
order. -/
def getValidationIssues (state : CarouselState) : List String :=
  validationIssuesAux 0 state.slides

/-- JavaScript `String(n).padStart(2, "0")`. -/
def padStart2 (s : String) : String :=
  if s.length < 2 then String.mk (List.replicate (2 - s.length) '0') ++ s else s

/-- App.tsx `handleDownloadCarousel` loop body filename:
`carrossel-${String(i + 1).padStart(2, "0")}.jpg` for the slide at
0-based index `i`. -/
def carouselFilename (i : Nat) : String :=
  "carrossel-" ++ padStart2 (toString (i + 1)) ++ ".jpg"

/-- App.tsx `handleDownloadCarousel` `for` loop over the slide indices:
each iteration requests a capture of slide `i` (the `capture` oracle
stands for the awaited `downloadCurrentPreview` call); on success the
sequential filename is saved and the loop continues, on failure the loop
aborts.  Returns the saved filenames in order and whether a capture
failed. -/
def exportLoop (capture : Nat → Bool) : List Nat → List String × Bool
  | [] => ([], false)
  | i :: rest =>
    if capture i then
      let r := exportLoop capture rest
      (carouselFilename i :: r.1, r.2)
    else ([], true)

/-- App.tsx `handleDownloadCarousel`: aborts with the first validation
issue; otherwise iterates every slide index in order (setting each one
active before its capture), and restores the originally active slide index
both on completion and on failure (the `catch` branch).  Returns the new
editor state and the filenames saved. -/
def handleDownloadCarousel (es : EditorState) (capture : Nat → Bool) :
    EditorState × List String :=
  match getValidationIssues es.carousel with
  | issue :: _ => ({ es with error := some ("Revise antes de exportar: " ++ issue) }, [])
  | [] =>
    let originalSlideIndex := es.carousel.activeSlideIndex
    let r := exportLoop capture (List.range es.carousel.slides.length)
    ({ es with
        carousel := { es.carousel with activeSlideIndex := originalSlideIndex },
        error := if r.2 then some "Falha ao gerar o download do carrossel." else none },
      r.1)

/-- The snapshot-then-mutate pattern shared by every recorded mutating
operation in App.tsx: `saveToHistory(carouselState)` with the pre-mutation
state, then a synchronous update of the carousel (and possibly of the
user-visible error message). -/
structure RecordedMutation where
  mutate : CarouselState → CarouselState
  updateErr : Option String → Option String

/-- Run one recorded mutating operation. -/
def recordedOp (op : RecordedMutation) (es : EditorState) : EditorState :=
  let es1 := saveToHistory es es.carousel
  { es1 with carousel := op.mutate es.carousel, error := op.updateErr es.error }

/-- Run a sequence of recorded mutating operations. -/
def applyOps (es : EditorState) (ops : List RecordedMutation) : EditorState :=
  ops.foldl (fun e op => recordedOp op e) es

/-- Invoke `handleUndo` n times. -/
def undoN : Nat → EditorState → EditorState
  | 0, es => es
  | n + 1, es => handleUndo (undoN n es)

/-- The structural invariant of a carousel document (spec §3): slides
non-empty, at most `MAX_SLIDES`, active index in range. -/
def carouselInvariant (c : CarouselState) : Prop :=
  c.slides ≠ [] ∧ c.slides.length ≤ MAX_SLIDES ∧ c.activeSlideIndex < c.slides.length

/-- The invariant extended to the whole editor state: the live document
and every snapshot on either stack are structurally valid. -/
def editorInvariant (es : EditorState) : Prop :=
  carouselInvariant es.carousel ∧
  (∀ c ∈ es.history, carouselInvariant c) ∧
  (∀ c ∈ es.redoStack, carouselInvariant c)

/-- A two-slide state with the first slide active. -/
def twoSlideState : EditorState :=
  { carousel := { slides := [DEFAULT_TWEET_DATA, DEFAULT_TWEET_DATA], activeSlideIndex := 0 },
    history := [],
    redoStack := [],
    error := none }

/-- A state at the `MAX_SLIDES` capacity limit. -/
def fullEditorState : EditorState :=
  { carousel := { slides := List.replicate 10 DEFAULT_TWEET_DATA, activeSlideIndex := 0 },
    history := [],
    redoStack := [],
    error := none }

/-- A one-slide carousel whose content is a single space: a non-empty
string of length 1 consisting only of whitespace. -/
def blankSlideState : CarouselState :=
  { slides := [{ DEFAULT_TWEET_DATA with content := " " }], activeSlideIndex := 0 }

/-! ## Basic facts about the deep-copy discipline -/

/-- `cloneSlide` rebuilds every field (including each nested position
object) and yields a structurally equal slide. -/
theorem cloneSlide_eq (s : TweetData) : cloneSlide s = s := rfl

/-- `cloneCarouselState` yields a structurally equal carousel: the
snapshot is a complete copy of the document. -/
theorem cloneCarouselState_eq (s : CarouselState) : cloneCarouselState s = s := by
  cases s with
  | mk slides idx => simp [cloneCarouselState, List.map_id'' cloneSlide_eq]

/-- `saveToHistory` appends exactly the snapshotted state. -/
theorem saveToHistory_history (es : EditorState) (p : CarouselState) :
    (saveToHistory es p).history = es.history ++ [p] := by
  simp [saveToHistory, cloneCarouselState_eq]

/-! ## The snapshot-then-mutate pattern and the real handlers

Each guarded slide operation, in its mutating branch, is literally an
instance of `recordedOp`: snapshot of the pre-mutation state, then a
synchronous carousel update. -/

theorem handleAddSlide_eq_recordedOp (es : EditorState)
    (hcap : ¬ MAX_SLIDES ≤ es.carousel.slides.length) :
    handleAddSlide es =
      recordedOp
        { mutate := fun c =>
            { slides := c.slides ++
                [cloneSlide ((c.slides.get? c.activeSlideIndex).getD DEFAULT_TWEET_DATA)],
              activeSlideIndex := c.slides.length },
          updateErr := fun _ => none } es := by
  rw [handleAddSlide, if_neg hcap]; rfl

theorem handleDuplicateSlide_eq_recordedOp (es : EditorState)
    (hcap : ¬ MAX_SLIDES ≤ es.carousel.slides.length) :
    handleDuplicateSlide es =
      recordedOp
        { mutate := fun c =>
            { slides := c.slides.take (c.activeSlideIndex + 1) ++
                cloneSlide ((c.slides.get? c.activeSlideIndex).getD DEFAULT_TWEET_DATA) ::
                  c.slides.drop (c.activeSlideIndex + 1),
              activeSlideIndex := c.activeSlideIndex + 1 },
          updateErr := fun _ => none } es := by
  rw [handleDuplicateSlide, if_neg hcap]; rfl

theorem handleRemoveSlide_eq_recordedOp (es : EditorState)
    (hguard : ¬ es.carousel.slides.length ≤ 1) :
    handleRemoveSlide es =
      recordedOp
        { mutate := fun c =>
            { slides := c.slides.eraseIdx c.activeSlideIndex,
              activeSlideIndex :=
                max 0 (min c.activeSlideIndex ((c.slides.eraseIdx c.activeSlideIndex).length - 1)) },
          updateErr := fun _ => none } es := by
  rw [handleRemoveSlide, if_neg hguard]; rfl

/-- A per-slide mutation preceded by its snapshot (the pattern of
`handleBackgroundChange`, `removeTweetImage`, the drag/resize session
start, …) is an instance of `recordedOp`. -/
theorem snapshotting_update_eq_recordedOp (es : EditorState) (updater : TweetData → TweetData) :
    updateTweetData (saveToHistory es es.carousel) updater =
      recordedOp
        { mutate := fun c =>
            { c with
              slides := c.slides.set c.activeSlideIndex
                  (updater ((c.slides.get? c.activeSlideIndex).getD DEFAULT_TWEET_DATA)) },
          updateErr := id } es := rfl

/-! ## C1: undo reverses any sequence of recorded operations -/

/-- After applying any recorded operations and undoing them all, the live
carousel and the undo stack are back to their initial values. -/
theorem undoN_applyOps (ops : List RecordedMutation) :
    ∀ es : EditorState,
      (undoN ops.length (applyOps es ops)).carousel = es.carousel ∧
      (undoN ops.length (applyOps es ops)).history = es.history := by
  induction ops with
  | nil => intro es; exact ⟨rfl, rfl⟩
  | cons op ops ih =>
    intro es
    have h := ih (recordedOp op es)
    have hhist : (recordedOp op es).history = es.history ++ [es.carousel] :=
      saveToHistory_history es es.carousel
    have hY2 : (undoN ops.length (applyOps (recordedOp op es) ops)).history
        = es.history ++ [es.carousel] := h.2.trans hhist
    have hlast : (undoN ops.length (applyOps (recordedOp op es) ops)).history.getLast?
        = some es.carousel := by rw [hY2]; exact List.getLast?_concat _
    constructor
    · show (handleUndo (undoN ops.length (applyOps (recordedOp op es) ops))).carousel
        = es.carousel
      simp only [handleUndo, hlast]
    · show (handleUndo (undoN ops.length (applyOps (recordedOp op es) ops))).history
        = es.history
      simp only [handleUndo, hlast]
      rw [hY2]
      exact List.dropLast_concat

/-- C1: for every sequence of N recorded mutating operations (each
snapshotting the pre-mutation carousel) followed by N undo invocations,
the carousel document — and the undo stack — equal their state before the
first operation.  Moreover snapshots are complete deep copies
(`cloneCarouselState` rebuilds every slide and nested position, yielding a
structurally equal value), and a recorded operation only appends to the
undo stack, leaving every stored entry unchanged. -/
theorem undo_inverts_recorded_operations (es : EditorState) (ops : List RecordedMutation) :
    (undoN ops.length (applyOps es ops)).carousel = es.carousel ∧
    (undoN ops.length (applyOps es ops)).history = es.history ∧
    (∀ s : CarouselState, cloneCarouselState s = s) ∧
    (∀ (op : RecordedMutation) (e : EditorState),
      ∃ appended, (recordedOp op e).history = e.history ++ appended) :=
  ⟨(undoN_applyOps ops es).1, (undoN_applyOps ops es).2,
   cloneCarouselState_eq,
   fun _ e => ⟨[cloneCarouselState e.carousel], rfl⟩⟩

/-! ## C2: every operation preserves the structural invariant -/

theorem editorInvariant_saveToHistory {es : EditorState} (h : editorInvariant es) :
    editorInvariant (saveToHistory es es.carousel) := by
  obtain ⟨hc, hh, _⟩ := h
  refine ⟨hc, ?_, ?_⟩
  · intro c hm
    rw [saveToHistory_history] at hm
    rcases List.mem_append.mp hm with h1 | h2
    · exact hh c h1
    · rwa [List.mem_singleton.mp h2]
  · intro c hm
    simp [saveToHistory] at hm

theorem editorInvariant_handleAddSlide {es : EditorState} (h : editorInvariant es) :
    editorInvariant (handleAddSlide es) := by
  by_cases hcap : MAX_SLIDES ≤ es.carousel.slides.length
  · rw [handleAddSlide, if_pos hcap]; exact h
  · rw [handleAddSlide, if_neg hcap]
    have hsave := editorInvariant_saveToHistory h
    obtain ⟨⟨hne, hlen, hidx⟩, _, _⟩ := h
    refine ⟨⟨?_, ?_, ?_⟩, hsave.2.1, hsave.2.2⟩
    · exact List.ne_nil_of_length_pos (by simp)
    · simp only [List.length_append, List.length_cons, List.length_nil]
      omega
    · simp only [List.length_append, List.length_cons, List.length_nil]
      omega

theorem editorInvariant_handleDuplicateSlide {es : EditorState} (h : editorInvariant es) :
    editorInvariant (handleDuplicateSlide es) := by
  by_cases hcap : MAX_SLIDES ≤ es.carousel.slides.length
  · rw [handleDuplicateSlide, if_pos hcap]; exact h
  · rw [handleDuplicateSlide, if_neg hcap]
    have hsave := editorInvariant_saveToHistory h
    obtain ⟨⟨hne, hlen, hidx⟩, _, _⟩ := h
    have hlength : (es.carousel.slides.take (es.carousel.activeSlideIndex + 1) ++
        cloneSlide ((es.carousel.slides.get? es.carousel.activeSlideIndex).getD DEFAULT_TWEET_DATA) ::
          es.carousel.slides.drop (es.carousel.activeSlideIndex + 1)).length
        = es.carousel.slides.length + 1 := by
      simp only [List.length_append, List.length_take, List.length_cons, List.length_drop]
      omega
    refine ⟨⟨?_, ?_, ?_⟩, hsave.2.1, hsave.2.2⟩
    · exact List.ne_nil_of_length_pos (by rw [hlength]; omega)
    · show (es.carousel.slides.take (es.carousel.activeSlideIndex + 1) ++
          cloneSlide ((es.carousel.slides.get? es.carousel.activeSlideIndex).getD DEFAULT_TWEET_DATA) ::
            es.carousel.slides.drop (es.carousel.activeSlideIndex + 1)).length ≤ MAX_SLIDES
      rw [hlength]; omega
    · show es.carousel.activeSlideIndex + 1 <
        (es.carousel.slides.take (es.carousel.activeSlideIndex + 1) ++
          cloneSlide ((es.carousel.slides.get? es.carousel.activeSlideIndex).getD DEFAULT_TWEET_DATA) ::
            es.carousel.slides.drop (es.carousel.activeSlideIndex + 1)).length
      rw [hlength]; omega

theorem editorInvariant_handleRemoveSlide {es : EditorState} (h : editorInvariant es) :
    editorInvariant (handleRemoveSlide es) := by
  by_cases hguard : es.carousel.slides.length ≤ 1
  · rw [handleRemoveSlide, if_pos hguard]; exact h
  · rw [handleRemoveSlide, if_neg hguard]
    have hsave := editorInvariant_saveToHistory h
    obtain ⟨⟨hne, hlen, hidx⟩, _, _⟩ := h
    have hlength : (es.carousel.slides.eraseIdx es.carousel.activeSlideIndex).length
        = es.carousel.slides.length - 1 := by
      rw [List.length_eraseIdx]
      exact if_pos hidx
    refine ⟨⟨?_, ?_, ?_⟩, hsave.2.1, hsave.2.2⟩
    · exact List.ne_nil_of_length_pos (by rw [hlength]; omega)
    · show (es.carousel.slides.eraseIdx es.carousel.activeSlideIndex).length ≤ MAX_SLIDES
      rw [hlength]; omega
    · show max 0 (min es.carousel.activeSlideIndex
          ((es.carousel.slides.eraseIdx es.carousel.activeSlideIndex).length - 1)) <
        (es.carousel.slides.eraseIdx es.carousel.activeSlideIndex).length
      rw [max_eq_right (Nat.zero_le _)]
      have hminle := min_le_right es.carousel.activeSlideIndex
        ((es.carousel.slides.eraseIdx es.carousel.activeSlideIndex).length - 1)
      rw [hlength] at hminle ⊢
      omega

theorem editorInvariant_handleMoveSlide {es : EditorState} (h : editorInvariant es)
    (direction : MoveDirection) : editorInvariant (handleMoveSlide es direction) := by
  have hsave := editorInvariant_saveToHistory h
  obtain ⟨⟨hne, hlen, hidx⟩, _, _⟩ := id h
  cases direction with
  | left =>
    simp only [handleMoveSlide]
    split
    · exact h
    · next hg =>
      push_neg at hg
      refine ⟨⟨?_, ?_, ?_⟩, hsave.2.1, hsave.2.2⟩
      · exact List.ne_nil_of_length_pos (by simp only [List.length_set]; omega)
      · simp only [List.length_set]; omega
      · simp only [List.length_set]; omega
  | right =>
    simp only [handleMoveSlide]
    split
    · exact h
    · next hg =>
      push_neg at hg
      refine ⟨⟨?_, ?_, ?_⟩, hsave.2.1, hsave.2.2⟩
      · exact List.ne_nil_of_length_pos (by simp only [List.length_set]; omega)
      · simp only [List.length_set]; omega
      · simp only [List.length_set]; omega

theorem editorInvariant_handleSelectSlide {es : EditorState} (h : editorInvariant es)
    {index : Nat} (hin : index < es.carousel.slides.length) :
    editorInvariant (handleSelectSlide es index) :=
  ⟨⟨h.1.1, h.1.2.1, hin⟩, h.2.1, h.2.2⟩

theorem editorInvariant_handleUndo {es : EditorState} (h : editorInvariant es) :
    editorInvariant (handleUndo es) := by
  obtain ⟨hc, hh, hr⟩ := h
  cases hlast : es.history.getLast? with
  | none => simp only [handleUndo, hlast]; exact ⟨hc, hh, hr⟩
  | some prev =>
    simp only [handleUndo, hlast]
    refine ⟨hh prev (List.mem_of_getLast?_eq_some hlast), ?_, ?_⟩
    · intro c hm
      exact hh c ((List.dropLast_sublist es.history).mem hm)
    · intro c hm
      rcases List.mem_cons.mp hm with h1 | h2
      · rw [h1, cloneCarouselState_eq]; exact hc
      · exact hr c h2

theorem editorInvariant_handleRedo {es : EditorState} (h : editorInvariant es) :
    editorInvariant (handleRedo es) := by
  obtain ⟨hc, hh, hr⟩ := h
  cases hredo : es.redoStack with
  | nil => simp only [handleRedo, hredo]; exact ⟨hc, hh, hr⟩
  | cons nextState newRedo =>
    simp only [handleRedo, hredo]
    refine ⟨hr nextState (hredo ▸ List.mem_cons_self _ _), ?_, ?_⟩
    · intro c hm
      rcases List.mem_append.mp hm with h1 | h2
      · exact hh c h1
      · rw [List.mem_singleton.mp h2, cloneCarouselState_eq]; exact hc
    · intro c hm
      exact hr c (hredo ▸ List.mem_cons_of_mem _ hm)

theorem editorInvariant_updateTweetData {es : EditorState} (h : editorInvariant es)
    (updater : TweetData → TweetData) : editorInvariant (updateTweetData es updater) := by
  obtain ⟨⟨hne, hlen, hidx⟩, hh, hr⟩ := h
  refine ⟨⟨?_, ?_, ?_⟩, hh, hr⟩
  · exact List.ne_nil_of_length_pos
      (by simp only [updateTweetData, List.length_set]; exact List.length_pos.mpr hne)
  · simpa only [updateTweetData, List.length_set] using hlen
  · simpa only [updateTweetData, List.length_set] using hidx

/-- C2: every carousel operation — addSlide, duplicateSlide, removeSlide,
moveSlide, selectSlide (invoked, as at every call site, with the index of
an existing slide), undo, redo, and every per-slide mutation — preserves
the structural invariant: slides non-empty with length at most
`MAX_SLIDES = 10` and `activeSlideIndex` indexing a valid slide (the
invariant is maintained for the live document and for every snapshot on
either history stack). -/
theorem operations_preserve_carousel_invariant (es : EditorState) (h : editorInvariant es) :
    editorInvariant (handleAddSlide es) ∧
    editorInvariant (handleDuplicateSlide es) ∧
    editorInvariant (handleRemoveSlide es) ∧
    (∀ direction : MoveDirection, editorInvariant (handleMoveSlide es direction)) ∧
    (∀ index : Nat, index < es.carousel.slides.length →
      editorInvariant (handleSelectSlide es index)) ∧
    editorInvariant (handleUndo es) ∧
    editorInvariant (handleRedo es) ∧
    (∀ updater : TweetData → TweetData, editorInvariant (updateTweetData es updater)) :=
  ⟨editorInvariant_handleAddSlide h,
   editorInvariant_handleDuplicateSlide h,
   editorInvariant_handleRemoveSlide h,
   editorInvariant_handleMoveSlide h,
   fun _ hin => editorInvariant_handleSelectSlide h hin,
   editorInvariant_handleUndo h,
   editorInvariant_handleRedo h,
   editorInvariant_updateTweetData h⟩

/-- Witness: the invariant holds of the initial one-slide state and is
preserved by an `addSlide` there. -/
theorem operations_preserve_carousel_invariant_witness :
    editorInvariant initialEditorState ∧ editorInvariant (handleAddSlide initialEditorState) := by
  have hinv : editorInvariant initialEditorState := by
    refine ⟨⟨?_, ?_, ?_⟩, ?_, ?_⟩ <;> simp [initialEditorState, carouselInvariant, MAX_SLIDES]
  exact ⟨hinv, (operations_preserve_carousel_invariant initialEditorState hinv).1⟩

/-! ## C7: capacity errors are user-visible no-ops -/

/-- C7: addSlide and duplicateSlide at `MAX_SLIDES` capacity, and
removeSlide with exactly one slide left, set a user-visible error message
and leave the slides, the active index and both history stacks unchanged
(no snapshot is recorded). -/
theorem capacity_errors_are_noops (es esOne : EditorState)
    (hfull : MAX_SLIDES ≤ es.carousel.slides.length)
    (hone : esOne.carousel.slides.length = 1) :
    ((handleAddSlide es).carousel = es.carousel ∧
     (handleAddSlide es).history = es.history ∧
     (handleAddSlide es).redoStack = es.redoStack ∧
     (handleAddSlide es).error
        = some ("Limite de " ++ toString MAX_SLIDES ++ " slides atingido.")) ∧
    ((handleDuplicateSlide es).carousel = es.carousel ∧
     (handleDuplicateSlide es).history = es.history ∧
     (handleDuplicateSlide es).redoStack = es.redoStack ∧
     (handleDuplicateSlide es).error
        = some ("Limite de " ++ toString MAX_SLIDES ++ " slides atingido.")) ∧
    ((handleRemoveSlide esOne).carousel = esOne.carousel ∧
     (handleRemoveSlide esOne).history = esOne.history ∧
     (handleRemoveSlide esOne).redoStack = esOne.redoStack ∧
     (handleRemoveSlide esOne).error = some "É necessário manter pelo menos 1 slide.") := by
  refine ⟨?_, ?_, ?_⟩
  · rw [handleAddSlide, if_pos hfull]
    exact ⟨rfl, rfl, rfl, rfl⟩
  · rw [handleDuplicateSlide, if_pos hfull]
    exact ⟨rfl, rfl, rfl, rfl⟩
  · rw [handleRemoveSlide, if_pos (le_of_eq hone)]
    exact ⟨rfl, rfl, rfl, rfl⟩

/-- Witness: a ten-slide state rejects addSlide unchanged and the initial
one-slide state rejects removeSlide unchanged. -/
theorem capacity_errors_are_noops_witness :
    (handleAddSlide fullEditorState).carousel = fullEditorState.carousel ∧
    (handleRemoveSlide initialEditorState).carousel = initialEditorState.carousel := by
  have h := capacity_errors_are_noops fullEditorState initialEditorState
    (by simp [fullEditorState, MAX_SLIDES]) (by simp [initialEditorState])
  exact ⟨h.1.1, h.2.2.1⟩

/-! ## C4: addSlide then removeSlide -/

theorem eraseIdx_concat_self {α : Type} (l : List α) (a : α) :
    (l ++ [a]).eraseIdx l.length = l := by
  induction l with
  | nil => rfl
  | cons b l ih =>
    show b :: (l ++ [a]).eraseIdx l.length = b :: l
    rw [ih]

/-- C4 counterexample: on a two-slide carousel with the first slide
active, addSlide followed by removeSlide restores the slide count (2) but
leaves `activeSlideIndex = 1`, not its pre-add value 0. -/
theorem add_then_remove_index_cex :
    (handleRemoveSlide (handleAddSlide twoSlideState)).carousel.slides.length = 2 ∧
    (handleRemoveSlide (handleAddSlide twoSlideState)).carousel.activeSlideIndex = 1 ∧
    twoSlideState.carousel.activeSlideIndex = 0 :=
  ⟨rfl, rfl, rfl⟩

/-- C4 (amended): for every carousel with fewer than `MAX_SLIDES` slides
and a valid active index, addSlide followed immediately by removeSlide
restores the slide sequence (hence the count), while `activeSlideIndex`
becomes the pre-add slide count minus one — which equals its pre-add value
exactly when the active slide was the last one. -/
theorem add_then_remove_restores_slides (es : EditorState)
    (hlen : es.carousel.slides.length < MAX_SLIDES)
    (hidx : es.carousel.activeSlideIndex < es.carousel.slides.length) :
    (handleRemoveSlide (handleAddSlide es)).carousel.slides = es.carousel.slides ∧
    (handleRemoveSlide (handleAddSlide es)).carousel.activeSlideIndex
      = es.carousel.slides.length - 1 := by
  have hcap : ¬ MAX_SLIDES ≤ es.carousel.slides.length := by omega
  have hslides : (handleAddSlide es).carousel.slides
      = es.carousel.slides ++
        [cloneSlide ((es.carousel.slides.get? es.carousel.activeSlideIndex).getD DEFAULT_TWEET_DATA)] := by
    rw [handleAddSlide, if_neg hcap]
  have hindex : (handleAddSlide es).carousel.activeSlideIndex = es.carousel.slides.length := by
    rw [handleAddSlide, if_neg hcap]
  have hguard : ¬ (handleAddSlide es).carousel.slides.length ≤ 1 := by
    rw [hslides]
    simp only [List.length_append, List.length_cons, List.length_nil]
    omega
  rw [handleRemoveSlide, if_neg hguard]
  constructor
  · show (handleAddSlide es).carousel.slides.eraseIdx (handleAddSlide es).carousel.activeSlideIndex
      = es.carousel.slides
    rw [hslides, hindex]
    exact eraseIdx_concat_self _ _
  · show max 0 (min (handleAddSlide es).carousel.activeSlideIndex
        (((handleAddSlide es).carousel.slides.eraseIdx
          (handleAddSlide es).carousel.activeSlideIndex).length - 1))
      = es.carousel.slides.length - 1
    rw [hslides, hindex, eraseIdx_concat_self]
    rw [max_eq_right (Nat.zero_le _), min_eq_right (by omega)]

/-- Witness for the amended C4 at the concrete two-slide state. -/
theorem add_then_remove_restores_slides_witness :
    (handleRemoveSlide (handleAddSlide twoSlideState)).carousel.slides
        = twoSlideState.carousel.slides ∧
    (handleRemoveSlide (handleAddSlide twoSlideState)).carousel.activeSlideIndex
        = twoSlideState.carousel.slides.length - 1 :=
  add_then_remove_restores_slides twoSlideState (by decide) (by decide)

/-! ## C5: resize scale is always clamped to [0.2, 3.0] -/

theorem jsMin_le_right (a b : ℚ) : jsMin a b ≤ b := by
  unfold jsMin
  split
  · assumption
  · exact le_refl b

theorem le_jsMax_left (a b : ℚ) : a ≤ jsMax a b := by
  unfold jsMax
  split
  · assumption
  · exact le_refl a

theorem jsMax_le {a b c : ℚ} (ha : a ≤ c) (hb : b ≤ c) : jsMax a b ≤ c := by
  unfold jsMax
  split
  · exact hb
  · exact ha

/-- Every value returned by the resize-move computation lies in the
clamping interval. -/
theorem processResizeMove_bounds (rs : ResizeStart) (corner : CornerHandle) (cx cy : ℚ) :
    0.2 ≤ processResizeMove rs corner cx cy ∧ processResizeMove rs corner cx cy ≤ 3.0 := by
  unfold processResizeMove
  constructor
  · exact le_jsMax_left _ _
  · exact jsMax_le (by norm_num) (jsMin_le_right _ _)

theorem scaleOf_writeResizeScale (slide : TweetData) (item : RegionItem) (v : ℚ) :
    scaleOf (writeResizeScale slide item v) item = v := by
  cases item <;> rfl

/-- After a non-empty resize session, the stored scale of the resized
region is the value written by one of the moves. -/
theorem runResizeSession_last (rs : ResizeStart) (corner : CornerHandle) (item : RegionItem)
    (moves : List (ℚ × ℚ)) :
    ∀ slide : TweetData, moves ≠ [] →
      ∃ m ∈ moves, scaleOf (runResizeSession slide rs corner item moves) item
        = processResizeMove rs corner m.1 m.2 := by
  induction moves with
  | nil => intro slide h; exact absurd rfl h
  | cons m rest ih =>
    intro slide _
    rcases eq_or_ne rest [] with hrest | hrest
    · subst hrest
      refine ⟨m, List.mem_cons_self _ _, ?_⟩
      show scaleOf (writeResizeScale slide item (processResizeMove rs corner m.1 m.2)) item = _
      exact scaleOf_writeResizeScale _ _ _
    · obtain ⟨mlast, hmem, heq⟩ :=
        ih (writeResizeScale slide item (processResizeMove rs corner m.1 m.2)) hrest
      exact ⟨mlast, List.mem_cons_of_mem _ hmem, heq⟩

/-- C5: for every resize session (any corner, any region, any initial
scale inside the interval) and every sequence of pointer moves, however
large, each scale written to the document — and the scale stored in the
document at the end of the session — lies within [0.2, 3.0]. -/
theorem resize_scale_always_clamped (slide : TweetData) (rs : ResizeStart)
    (corner : CornerHandle) (item : RegionItem) (moves : List (ℚ × ℚ))
    (_hinit : 0.2 ≤ rs.initialScale ∧ rs.initialScale ≤ 3.0) (hne : moves ≠ []) :
    (∀ m ∈ moves,
      0.2 ≤ processResizeMove rs corner m.1 m.2 ∧ processResizeMove rs corner m.1 m.2 ≤ 3.0) ∧
    (0.2 ≤ scaleOf (runResizeSession slide rs corner item moves) item ∧
      scaleOf (runResizeSession slide rs corner item moves) item ≤ 3.0) := by
  refine ⟨fun m _ => processResizeMove_bounds rs corner m.1 m.2, ?_⟩
  obtain ⟨m, _, heq⟩ := runResizeSession_last rs corner item moves slide hne
  rw [heq]
  exact processResizeMove_bounds rs corner m.1 m.2

/-- Witness: a single enormous southeast drag of the header handle keeps
the stored scale inside the interval. -/
theorem resize_scale_always_clamped_witness :
    (0.2 ≤ (1 : ℚ) ∧ (1 : ℚ) ≤ 3.0) ∧
    (0.2 ≤ scaleOf (runResizeSession DEFAULT_TWEET_DATA ⟨0, 0, 1⟩ CornerHandle.se
        RegionItem.header [((100000 : ℚ), (100000 : ℚ))]) RegionItem.header ∧
      scaleOf (runResizeSession DEFAULT_TWEET_DATA ⟨0, 0, 1⟩ CornerHandle.se
        RegionItem.header [((100000 : ℚ), (100000 : ℚ))]) RegionItem.header ≤ 3.0) := by
  have h1 : (0.2 ≤ (1 : ℚ) ∧ (1 : ℚ) ≤ 3.0) := by norm_num
  have h2 : ([((100000 : ℚ), (100000 : ℚ))] : List (ℚ × ℚ)) ≠ [] := by simp
  exact ⟨h1, (resize_scale_always_clamped DEFAULT_TWEET_DATA ⟨0, 0, 1⟩ CornerHandle.se
    RegionItem.header [((100000 : ℚ), (100000 : ℚ))] h1 h2).2⟩

/-! ## C3: snapping a drag near x = 0 -/

/-- C3 counterexample: dragging an 860px-wide element to candidate
x = 10 (within the 15px threshold of 0) does not end at x = 0: the
snap to 0 fires, but the subsequent center-snap check (run with the
already-snapped x) re-assigns x = 10. -/
theorem drag_snap_cex :
    jsAbs ((0 : ℚ) + ((10 : ℚ) - 0) / 1) < SNAP_THRESHOLD ∧
    (processDragMove { x := 0, y := 0, initialX := 0, initialY := 0, width := 860, height := 100 }
        1 10 0).newX ≠ 0 := by
  constructor
  · norm_num [jsAbs, SNAP_THRESHOLD]
  · norm_num [processDragMove, jsAbs, SNAP_THRESHOLD, CARD_WIDTH, CARD_PADDING_LEFT]

/-- C3 (amended): whenever the candidate x offset (initial position plus
pointer delta over the view scale) is within 15px of 0, the emitted
guideline set is non-empty; the stored x offset is exactly 0 unless the
element's center-snap condition also fires (its width `w` satisfies
`|100 + w/2 − 540| < 15`), in which case the stored x is the centering
offset `540 − 100 − w/2` instead. -/
theorem drag_snap_near_zero (ds : DragStart) (scale clientX clientY : ℚ)
    (h : jsAbs (ds.initialX + (clientX - ds.x) / scale) < SNAP_THRESHOLD) :
    (processDragMove ds scale clientX clientY).guidelines ≠ [] ∧
    (processDragMove ds scale clientX clientY).newX
      = (if jsAbs (CARD_PADDING_LEFT + ds.width / 2 - CARD_WIDTH / 2) < SNAP_THRESHOLD
         then CARD_WIDTH / 2 - CARD_PADDING_LEFT - ds.width / 2
         else 0) := by
  simp only [processDragMove, h, if_true, add_zero]
  constructor
  · split_ifs <;> simp
  · trivial

/-- Witness: a drag of a 100px-wide element with candidate x = 10 snaps to
exactly 0 and emits a guideline. -/
theorem drag_snap_near_zero_witness :
    jsAbs ((0 : ℚ) + ((10 : ℚ) - 0) / 1) < SNAP_THRESHOLD ∧
    (processDragMove { x := 0, y := 0, initialX := 0, initialY := 0, width := 100, height := 50 }
        1 10 0).guidelines ≠ [] ∧
    (processDragMove { x := 0, y := 0, initialX := 0, initialY := 0, width := 100, height := 50 }
        1 10 0).newX = 0 := by
  have hthr : jsAbs ((0 : ℚ) + ((10 : ℚ) - 0) / 1) < SNAP_THRESHOLD := by
    norm_num [jsAbs, SNAP_THRESHOLD]
  have h := drag_snap_near_zero
    { x := 0, y := 0, initialX := 0, initialY := 0, width := 100, height := 50 } 1 10 0 hthr
  refine ⟨hthr, h.1, ?_⟩
  rw [h.2, if_neg (by norm_num [jsAbs, SNAP_THRESHOLD, CARD_WIDTH, CARD_PADDING_LEFT])]

/-! ## C6: carousel export -/

theorem exportLoop_all_ok (capture : Nat → Bool) :
    ∀ l : List Nat, (∀ i ∈ l, capture i = true) →
      exportLoop capture l = (l.map carouselFilename, false) := by
  intro l
  induction l with
  | nil => intro _; rfl
  | cons i rest ih =>
    intro hall
    have hi : capture i = true := hall i (List.mem_cons_self _ _)
    simp only [exportLoop, hi, if_true, ih (fun j hj => hall j (List.mem_cons_of_mem _ hj)),
      List.map_cons]

theorem exportLoop_fail (capture : Nat → Bool) (j : Nat) (hj : capture j = false) :
    ∀ (l1 l2 : List Nat), (∀ i ∈ l1, capture i = true) →
      exportLoop capture (l1 ++ j :: l2) = (l1.map carouselFilename, true) := by
  intro l1
  induction l1 with
  | nil =>
    intro l2 _
    simp only [List.nil_append, exportLoop, hj, Bool.false_eq_true, if_false, List.map_nil]
  | cons i rest ih =>
    intro l2 hall
    have hi : capture i = true := hall i (List.mem_cons_self _ _)
    simp only [List.cons_append, exportLoop, List.append_eq, hi, if_true,
      ih l2 (fun k hk => hall k (List.mem_cons_of_mem _ hk)), List.map_cons]

theorem range_split {j K : Nat} (hjK : j < K) :
    List.range K = List.range j ++ j :: List.range' (j + 1) (K - j - 1) := by
  have h1 : List.range' 0 j ++ List.range' j (K - j) = List.range' 0 K := by
    have happ := List.range'_append_1 0 j (K - j)
    rw [Nat.zero_add] at happ
    rw [happ]
    congr 1
    omega
  have h2 : List.range' j (K - j) = j :: List.range' (j + 1) (K - j - 1) := by
    have hsucc := List.range'_succ j (K - j - 1) 1
    rw [show K - j - 1 + 1 = K - j by omega] at hsucc
    exact hsucc
  rw [List.range_eq_range', List.range_eq_range', ← h1, h2]

/-- C6 counterexample: the first filename passed to the save step is
`carrossel-01.jpg`, not `carousel-01` (nor `carousel-01.jpg`): the claimed
filename stem is wrong. -/
theorem export_filename_cex :
    (handleDownloadCarousel initialEditorState (fun _ => true)).2 = ["carrossel-01.jpg"] ∧
    ("carrossel-01.jpg" : String) ≠ "carousel-01" ∧
    ("carrossel-01.jpg" : String) ≠ "carousel-01.jpg" :=
  ⟨by decide, by decide, by decide⟩

/-- C6 (amended): on a document with K slides that passes validation,
exportCarousel emits exactly K capture/save requests, one per slide in
slide order, with the sequential zero-padded filenames `carrossel-01.jpg`,
`carrossel-02.jpg`, …, and `activeSlideIndex` equals its pre-export value
afterwards, both on success and on failure of a single slide's capture —
in which case the saves are exactly those of the slides before the failing
one and the remaining slides are not exported. -/
theorem export_carousel_sequential (es : EditorState) (capture : Nat → Bool)
    (hval : getValidationIssues es.carousel = []) :
    (handleDownloadCarousel es capture).1.carousel.activeSlideIndex
        = es.carousel.activeSlideIndex ∧
    ((∀ i, i < es.carousel.slides.length → capture i = true) →
      (handleDownloadCarousel es capture).2
        = (List.range es.carousel.slides.length).map carouselFilename) ∧
    (∀ j, j < es.carousel.slides.length → (∀ i, i < j → capture i = true) →
      capture j = false →
      (handleDownloadCarousel es capture).2 = (List.range j).map carouselFilename) := by
  refine ⟨?_, ?_, ?_⟩
  · simp only [handleDownloadCarousel, hval]
  · intro hall
    simp only [handleDownloadCarousel, hval]
    rw [exportLoop_all_ok capture _ (fun i hi => hall i (List.mem_range.mp hi))]
  · intro j hj hbefore hfail
    simp only [handleDownloadCarousel, hval]
    rw [range_split hj,
      exportLoop_fail capture j hfail _ _ (fun i hi => hbefore i (List.mem_range.mp hi))]

/-- Witness: exporting the valid initial one-slide document with an
always-succeeding capture oracle restores the index and saves exactly the
one sequential filename. -/
theorem export_carousel_sequential_witness :
    getValidationIssues initialEditorState.carousel = [] ∧
    (handleDownloadCarousel initialEditorState (fun _ => true)).1.carousel.activeSlideIndex
        = initialEditorState.carousel.activeSlideIndex ∧
    (handleDownloadCarousel initialEditorState (fun _ => true)).2
        = (List.range initialEditorState.carousel.slides.length).map carouselFilename := by
  have hval : getValidationIssues initialEditorState.carousel = [] := by decide
  have h := export_carousel_sequential initialEditorState (fun _ => true) hval
  exact ⟨hval, h.1, h.2.1 (fun i _ => rfl)⟩

/-! ## C8 and C10: validation -/

theorem validationIssuesAux_length (slides : List TweetData) :
    ∀ k : Nat, (validationIssuesAux k slides).length
      = slides.countP (fun s => jsTrim s.content == "")
        + slides.countP (fun s => decide (420 < s.content.length)) := by
  induction slides with
  | nil => intro k; rfl
  | cons s rest ih =>
    intro k
    by_cases hb : jsTrim s.content = "" <;> by_cases hl : 420 < s.content.length <;>
      simp [validationIssuesAux, List.countP_cons, hb, hl, ih (k + 1)] <;> omega

theorem validationIssuesAux_eq_nil (slides : List TweetData) :
    ∀ k : Nat, validationIssuesAux k slides = [] ↔
      ∀ s ∈ slides, jsTrim s.content ≠ "" ∧ s.content.length ≤ 420 := by
  induction slides with
  | nil => intro k; simp [validationIssuesAux]
  | cons s rest ih =>
    intro k
    by_cases hb : jsTrim s.content = "" <;> by_cases hl : 420 < s.content.length <;>
      simp [validationIssuesAux, hb, hl, Nat.not_lt, ih (k + 1)] <;> omega

/-- C8 counterexample: a document whose single slide has the non-empty,
length-1 content " " (one space) is flagged by validation, refuting the
claimed biconditional for literal (untrimmed) emptiness. -/
theorem validation_blank_cex :
    (∀ s ∈ blankSlideState.slides, s.content ≠ "" ∧ s.content.length ≤ 420) ∧
    getValidationIssues blankSlideState = ["Slide 1: texto vazio."] :=
  ⟨by decide, by decide⟩

/-- C8 (amended): validation returns one issue for each slide whose
content is blank (empty after trimming whitespace, the source's
`!content.trim()` test) and one issue for each slide whose content exceeds
420 characters; it returns the empty list exactly when every slide's
trimmed content is non-empty and its raw content is at most 420 characters
long. -/
theorem validation_counts_blank_and_long (st : CarouselState) :
    ((getValidationIssues st).length
      = st.slides.countP (fun s => jsTrim s.content == "")
        + st.slides.countP (fun s => decide (420 < s.content.length))) ∧
    (getValidationIssues st = [] ↔
      ∀ s ∈ st.slides, jsTrim s.content ≠ "" ∧ s.content.length ≤ 420) :=
  ⟨validationIssuesAux_length st.slides 0, validationIssuesAux_eq_nil st.slides 0⟩

theorem dropWhile_whitespace_eq_nil {l : List Char} (h : ∀ c ∈ l, c.isWhitespace) :
    l.dropWhile Char.isWhitespace = [] := by
  induction l with
  | nil => rfl
  | cons c rest ih =>
    have hc : Char.isWhitespace c := h c (List.mem_cons_self _ _)
    simp [List.dropWhile_cons, hc, ih (fun d hd => h d (List.mem_cons_of_mem _ hd))]

theorem jsTrim_eq_empty_of_whitespace {s : String} (h : ∀ c ∈ s.data, c.isWhitespace) :
    jsTrim s = "" := by
  unfold jsTrim
  rw [dropWhile_whitespace_eq_nil h]
  rfl

theorem empty_issue_mem_validationIssuesAux :
    ∀ (slides : List TweetData) (k i : Nat) (slide : TweetData),
      slides.get? i = some slide → jsTrim slide.content = "" →
      ("Slide " ++ toString (k + i + 1) ++ ": texto vazio.") ∈ validationIssuesAux k slides := by
  intro slides
  induction slides with
  | nil => intro k i slide hget; simp at hget
  | cons s rest ih =>
    intro k i slide hget hblank
    cases i with
    | zero =>
      rw [List.get?_cons_zero, Option.some.injEq] at hget
      subst hget
      simp [validationIssuesAux, hblank]
    | succ n =>
      rw [List.get?_cons_succ] at hget
      have hmem := ih (k + 1) n slide hget hblank
      have hidx : k + (n + 1) + 1 = k + 1 + n + 1 := by omega
      rw [hidx]
      exact List.mem_append_right _ hmem

/-- C10: for every slide whose content is a non-empty string consisting
solely of whitespace characters, validation reports the empty-text issue
for that slide, the issue list is non-empty, and carousel export on such a
document aborts without saving anything. -/
theorem whitespace_only_content_blocks_export (st : CarouselState) (i : Nat) (slide : TweetData)
    (hget : st.slides.get? i = some slide)
    (_hne : slide.content ≠ "")
    (hws : ∀ c ∈ slide.content.data, c.isWhitespace) :
    ("Slide " ++ toString (i + 1) ++ ": texto vazio.") ∈ getValidationIssues st ∧
    getValidationIssues st ≠ [] ∧
    (∀ (hist redo : List CarouselState) (err : Option String) (capture : Nat → Bool),
      (handleDownloadCarousel
        { carousel := st, history := hist, redoStack := redo, error := err } capture).2 = []) := by
  have hblank := jsTrim_eq_empty_of_whitespace hws
  have hmem := empty_issue_mem_validationIssuesAux st.slides 0 i slide hget hblank
  rw [Nat.zero_add] at hmem
  refine ⟨hmem, ?_, ?_⟩
  · intro hnil
    have hnil2 : validationIssuesAux 0 st.slides = [] := hnil
    rw [hnil2] at hmem
    exact List.not_mem_nil _ hmem
  · intro hist redo err capture
    cases hiss : getValidationIssues st with
    | nil =>
      exfalso
      have hiss2 : validationIssuesAux 0 st.slides = [] := hiss
      rw [hiss2] at hmem
      exact List.not_mem_nil _ hmem
    | cons a as => simp [handleDownloadCarousel, hiss]

/-- Witness: the one-space slide document is flagged at index 0 and its
issue list is non-empty. -/
theorem whitespace_only_content_blocks_export_witness :
    ("Slide " ++ toString (0 + 1) ++ ": texto vazio.") ∈ getValidationIssues blankSlideState ∧
    getValidationIssues blankSlideState ≠ [] := by
  have h := whitespace_only_content_blocks_export blankSlideState 0
    { DEFAULT_TWEET_DATA with content := " " } (by rfl) (by decide) (by decide)
  exact ⟨h.1, h.2.1⟩

/-! ## C9: viewport scale and division by zero -/

/-- C9 counterexample: a container measuring exactly 32px (the padding)
in width is not skipped by the zero-dimension guard and produces view
scale 0 — the value `processMove` later divides by. -/
theorem viewport_zero_scale_cex : calculateScale 32 1440 = some 0 := by
  norm_num [calculateScale, jsMin]

/-- C9 (amended): the scale recompute is skipped (`none`) when a container
dimension is exactly 0, and for containers strictly larger than the 32px
padding in both dimensions the computed view scale is positive — hence the
drag-move division is by a nonzero scale.  The guard does not cover a
container measuring exactly 32px in a dimension, which yields scale 0
(see the counterexample), so the claim as stated fails. -/
theorem viewport_scale_guard (w h : ℚ) :
    (w = 0 ∨ h = 0 → calculateScale w h = none) ∧
    (32 < w → 32 < h → ∀ s, calculateScale w h = some s → 0 < s ∧ s ≠ 0) := by
  constructor
  · intro hz
    rw [calculateScale, if_pos hz]
  · intro hw hh s hs
    have hnz : ¬ (w = 0 ∨ h = 0) := by
      rintro (rfl | rfl)
      · linarith
      · linarith
    simp only [calculateScale, if_neg hnz, Option.some.injEq] at hs
    subst hs
    have hsx : (0 : ℚ) < (w - 32) / 1080 := div_pos (by linarith) (by norm_num)
    have hsy : (0 : ℚ) < (h - 32) / 1440 := div_pos (by linarith) (by norm_num)
    have hmin : 0 < jsMin ((w - 32) / 1080) ((h - 32) / 1440) := by
      unfold jsMin
      split
      · exact hsx
      · exact hsy
    exact ⟨hmin, ne_of_gt hmin⟩

/-- Witness: a hidden container is skipped, and a 100×100 container gives
the positive scale 17/360. -/
theorem viewport_scale_guard_witness :
    calculateScale 0 500 = none ∧ ((0 : ℚ) < 17 / 360 ∧ (17 / 360 : ℚ) ≠ 0) := by
  refine ⟨(viewport_scale_guard 0 500).1 (Or.inl rfl), ?_⟩
  exact (viewport_scale_guard 100 100).2 (by norm_num) (by norm_num) (17 / 360)
    (by norm_num [calculateScale, jsMin])

end TweetGen
